import Mathlib

/-!
Shallow embedding of the PPh 21 core of the pph-calc repository.

All monetary arithmetic in the source goes through an arbitrary-precision
decimal type; it is embedded here as `ℚ` (exact rational arithmetic).
The `Infinity` sentinels used as the last bracket limits are embedded as
`Option ℚ` with `none` standing for `+∞`.
-/

namespace PPHCalc

/-- Embeds the `PPh21Scheme` string enum (`traditional` / `ter`). -/
inductive PPh21Scheme
  | TRADITIONAL
  | TER
deriving DecidableEq, Repr

/-- Embeds the `PPh21TERCategory` enum (`A` / `B` / `C`). -/
inductive PPh21TERCategory
  | A
  | B
  | C
deriving DecidableEq, Repr

/-- Embeds the `PPh21Bonus` interface: `{name, amount, month}`.
`month` is a JS number (1-12 by convention, unchecked), embedded as `ℤ`. -/
structure PPh21Bonus where
  name : String
  amount : ℚ
  month : ℤ
deriving DecidableEq, Repr

/-- Embeds the `PTKP_RATES` table: status code to annual non-taxable amount;
a missing key yields `none` (source: `PTKP_RATES[status]` is `undefined`). -/
def PTKP_RATES (status : String) : Option ℚ :=
  if status = "TK" then some 54000000
  else if status = "K1" then some 58500000
  else if status = "K2" then some 63000000
  else if status = "K3" then some 67500000
  else none

/-- Embeds the `TaxBracket` interface; `limit = none` stands for `Infinity`. -/
structure TaxBracket where
  limit : Option ℚ
  rate : ℚ
deriving DecidableEq, Repr

/-- Embeds the `TAX_BRACKETS` constant (Pasal 17 progressive rates). -/
def TAX_BRACKETS : List TaxBracket :=
  [ { limit := some 50000000, rate := 0.05 },
    { limit := some 250000000, rate := 0.15 },
    { limit := some 500000000, rate := 0.25 },
    { limit := some 5000000000, rate := 0.30 },
    { limit := none, rate := 0.35 } ]

/-- Embeds the `TERBracket` interface; `maxIncome = none` stands for `Infinity`. -/
structure TERBracket where
  minIncome : ℚ
  maxIncome : Option ℚ
  rateA : ℚ
  rateB : ℚ
  rateC : ℚ
deriving DecidableEq, Repr

/-- Embeds the `TER_MONTHLY_RATES` constant (nine-row TER bracket table). -/
def TER_MONTHLY_RATES : List TERBracket :=
  [ { minIncome := 0, maxIncome := some 5000000, rateA := 0.0000, rateB := 0.0000, rateC := 0.0000 },
    { minIncome := 5000001, maxIncome := some 6000000, rateA := 0.0025, rateB := 0.0050, rateC := 0.0075 },
    { minIncome := 6000001, maxIncome := some 7000000, rateA := 0.0050, rateB := 0.0075, rateC := 0.0100 },
    { minIncome := 7000001, maxIncome := some 8000000, rateA := 0.0075, rateB := 0.0100, rateC := 0.0125 },
    { minIncome := 8000001, maxIncome := some 10000000, rateA := 0.0100, rateB := 0.0150, rateC := 0.0200 },
    { minIncome := 10000001, maxIncome := some 15000000, rateA := 0.0200, rateB := 0.0300, rateC := 0.0400 },
    { minIncome := 15000001, maxIncome := some 25000000, rateA := 0.0400, rateB := 0.0600, rateC := 0.0800 },
    { minIncome := 25000001, maxIncome := some 50000000, rateA := 0.0800, rateB := 0.1200, rateC := 0.1600 },
    { minIncome := 50000001, maxIncome := none, rateA := 0.1500, rateB := 0.2000, rateC := 0.2500 } ]

/-- Embeds `PPH21Calculator.getPTKP`: `PTKP_RATES[status] || PTKP_RATES['TK']`
(every table value is a nonzero number, so the `||` fallback fires exactly on a
missing key). -/
def getPTKP (status : String) : ℚ :=
  (PTKP_RATES status).getD 54000000

/-- The loop body of `PPH21Calculator.calculateProgressiveTax`: walks the
bracket list carrying `previousLimit` and the accumulated `tax`; a bracket with
`limit = none` (`Infinity`) always satisfies the `pkp.lte(limit)` break. -/
def progressiveTaxLoop (pkp : ℚ) : List TaxBracket → ℚ → ℚ → ℚ
  | [], _, tax => tax
  | b :: rest, previousLimit, tax =>
    match b.limit with
    | none =>
      let taxableInBracket := pkp - previousLimit
      if 0 < taxableInBracket then tax + taxableInBracket * b.rate else tax
    | some limit =>
      let taxableInBracket := min pkp limit - previousLimit
      let tax' := if 0 < taxableInBracket then tax + taxableInBracket * b.rate else tax
      if pkp ≤ limit then tax' else progressiveTaxLoop pkp rest limit tax'

/-- Embeds `PPH21Calculator.calculateProgressiveTax`. -/
def calculateProgressiveTax (pkp : ℚ) : ℚ :=
  if pkp ≤ 0 then 0 else progressiveTaxLoop pkp TAX_BRACKETS 0 0

/-- The row-matching test of `getTERRate`:
`monthlyIncome.gte(bracket.minIncome) && monthlyIncome.lte(bracket.maxIncome)`. -/
def terBracketContains (b : TERBracket) (monthlyIncome : ℚ) : Bool :=
  decide (b.minIncome ≤ monthlyIncome) &&
    (match b.maxIncome with
     | none => true
     | some mx => decide (monthlyIncome ≤ mx))

/-- The `switch (category)` rate-column selection inside `getTERRate`. -/
def terRateFor (b : TERBracket) (category : PPh21TERCategory) : ℚ :=
  match category with
  | .A => b.rateA
  | .B => b.rateB
  | .C => b.rateC

/-- The hardcoded fallback of `getTERRate`:
`category === A ? 0.15 : category === B ? 0.20 : 0.25`. -/
def terDefaultRate (category : PPh21TERCategory) : ℚ :=
  match category with
  | .A => 0.15
  | .B => 0.20
  | .C => 0.25

/-- The scan loop of `getTERRate` over the bracket rows (first match wins). -/
def getTERRateGo (monthlyIncome : ℚ) (category : PPh21TERCategory) :
    List TERBracket → ℚ
  | [] => terDefaultRate category
  | b :: rest =>
    if terBracketContains b monthlyIncome then terRateFor b category
    else getTERRateGo monthlyIncome category rest

/-- Embeds `PPH21Calculator.getTERRate`. -/
def getTERRate (monthlyIncome : ℚ) (category : PPh21TERCategory) : ℚ :=
  getTERRateGo monthlyIncome category TER_MONTHLY_RATES

/-- Embeds `PPH21Calculator.calculateBiayaJabatan`:
`Decimal.min(grossAnnual.times(0.05), 6000000)`. -/
def calculateBiayaJabatan (grossAnnual : ℚ) : ℚ :=
  min (grossAnnual * 0.05) 6000000

/-- Embeds `PPH21Calculator.roundDownThousand`:
`value.dividedBy(1000).floor().times(1000)`. -/
def roundDownThousand (value : ℚ) : ℚ :=
  (⌊value / 1000⌋ : ℚ) * 1000

/-- One record of the TER `monthlyBreakdown` array in `PPh21DetailedResult`. -/
structure MonthlyBreakdownEntry where
  month : ℕ
  income : ℚ
  terRate : ℚ
  tax : ℚ
  hasBonus : Bool
  bonusNames : Option String
deriving DecidableEq, Repr

/-- Embeds the `PPh21DetailedResult` interface; optional (`?`) fields are
`Option`s, with `none` standing for `undefined`. -/
structure PPh21DetailedResult where
  grossMonthly : ℚ
  grossAnnual : ℚ
  bonusTotal : ℚ
  bonuses : List PPh21Bonus
  workMonths : ℕ
  biayaJabatan : ℚ
  pensionAnnual : ℚ
  zakatDonation : ℚ
  totalDeductions : ℚ
  nettoAnnual : ℚ
  ptkp : ℚ
  pkp : ℚ
  scheme : PPh21Scheme
  terCategory : Option PPh21TERCategory
  annualTax : ℚ
  monthlyTax : ℚ
  effectiveTaxRate : ℚ
  terPaid : Option ℚ
  month12Adjustment : Option ℚ
  monthlyBreakdown : Option (List MonthlyBreakdownEntry)
  takeHomeAnnual : ℚ
  takeHomeMonthly : ℚ
deriving DecidableEq, Repr

/-- Embeds `Math.max(1, Math.min(12, workMonthsInput))` from `calculate`. -/
def clampWorkMonths (workMonthsInput : ℤ) : ℕ :=
  (max 1 (min 12 workMonthsInput)).toNat

/-- Embeds `bonuses.reduce((sum, bonus) => sum.plus(bonus.amount), new Decimal(0))`. -/
def bonusTotalOf (bonuses : List PPh21Bonus) : ℚ :=
  bonuses.foldl (fun sum b => sum + b.amount) 0

/-- The 12-slot monthly-income array right after
`new Array(12).fill(new Decimal(0))` and the `for (i < workMonths)` fill loop. -/
def initMonthlyIncome (grossMonthly : ℚ) (workMonths : ℕ) : List ℚ :=
  (List.range 12).map (fun i => if i < workMonths then grossMonthly else 0)

/-- The bonus-injection loop of the TER branch: for each bonus,
`monthIndex = month - 1`; add the amount into the slot only when
`monthIndex >= 0 && monthIndex < 12 && monthIndex < workMonths`. -/
def addBonusesToMonths (workMonths : ℕ) (bonuses : List PPh21Bonus)
    (arr : List ℚ) : List ℚ :=
  bonuses.foldl
    (fun a bonus =>
      let monthIndex := bonus.month - 1
      if 0 ≤ monthIndex ∧ monthIndex < 12 ∧ monthIndex < (workMonths : ℤ) then
        a.set monthIndex.toNat (a.getD monthIndex.toNat 0 + bonus.amount)
      else a)
    arr

/-- The body of one iteration of the TER month loop (month `i + 1`):
rate lookup, `monthTax = income × rate`, and the pushed breakdown record. -/
def terMonthEntry (monthlyIncome : List ℚ) (terCategory : PPh21TERCategory)
    (bonuses : List PPh21Bonus) (i : ℕ) : MonthlyBreakdownEntry :=
  let income := monthlyIncome.getD i 0
  let rate := getTERRate income terCategory
  let monthTax := income * rate
  let monthBonuses := bonuses.filter (fun b => b.month == (i : ℤ) + 1)
  let hasBonus := !monthBonuses.isEmpty
  let bonusNames := String.intercalate ", " (monthBonuses.map (fun b => b.name))
  { month := i + 1, income := income, terRate := rate, tax := monthTax,
    hasBonus := hasBonus,
    bonusNames := if hasBonus then some bonusNames else none }

/-- The TER month loop `for (i = 0; i < 11 && i < workMonths; i++)`:
pushes breakdown records and accumulates `terPaid`. -/
def terLoop (monthlyIncome : List ℚ) (terCategory : PPh21TERCategory)
    (bonuses : List PPh21Bonus) (workMonths : ℕ) :
    List MonthlyBreakdownEntry × ℚ :=
  (List.range (min 11 workMonths)).foldl
    (fun acc i =>
      let e := terMonthEntry monthlyIncome terCategory bonuses i
      (acc.1 ++ [e], acc.2 + e.tax))
    ([], 0)

/-- The shared tail of `calculate` after the scheme branch: monthly tax,
effective rate (0 when `grossAnnual` is not positive), take-home figures, and
the assembled result record. -/
def finishResult (grossMonthly grossAnnual bonusTotal : ℚ)
    (bonuses : List PPh21Bonus) (workMonths : ℕ)
    (biayaJabatan pensionAnnual zakatDonation totalDeductions nettoAnnual ptkp pkp : ℚ)
    (scheme : PPh21Scheme) (terCategory : Option PPh21TERCategory)
    (annualTax : ℚ) (terPaid month12Adjustment : Option ℚ)
    (monthlyBreakdown : Option (List MonthlyBreakdownEntry)) :
    PPh21DetailedResult :=
  { grossMonthly := grossMonthly, grossAnnual := grossAnnual,
    bonusTotal := bonusTotal, bonuses := bonuses, workMonths := workMonths,
    biayaJabatan := biayaJabatan, pensionAnnual := pensionAnnual,
    zakatDonation := zakatDonation, totalDeductions := totalDeductions,
    nettoAnnual := nettoAnnual, ptkp := ptkp, pkp := pkp, scheme := scheme,
    terCategory := terCategory, annualTax := annualTax,
    monthlyTax := annualTax / 12,
    effectiveTaxRate := if 0 < grossAnnual then annualTax / grossAnnual * 100 else 0,
    terPaid := terPaid, month12Adjustment := month12Adjustment,
    monthlyBreakdown := monthlyBreakdown,
    takeHomeAnnual := grossAnnual - annualTax,
    takeHomeMonthly := (grossAnnual - annualTax) / 12 }

/-- Embeds `PPH21Calculator.calculate`. In the TER branch, `terPaid` and
`month12Adjustment` are `Decimal` objects in the source, so the
`x ? x.toNumber() : undefined` result guards are always truthy there; the
embedding accordingly returns `some` for all four TER-only fields in the TER
branch and `none` for all four in the traditional branch. -/
def calculate (grossMonthlyInput : ℚ) (ptkpStatus : String)
    (workMonthsInput : ℤ) (scheme : PPh21Scheme)
    (terCategory : PPh21TERCategory) (pensionMonthlyInput : ℚ)
    (zakatAnnualInput : ℚ) (bonuses : List PPh21Bonus) : PPh21DetailedResult :=
  let grossMonthly := grossMonthlyInput
  let workMonths := clampWorkMonths workMonthsInput
  let pensionMonthly := pensionMonthlyInput
  let zakatAnnual := zakatAnnualInput
  let grossFromSalary := grossMonthly * (workMonths : ℚ)
  let bonusTotal := bonusTotalOf bonuses
  let grossAnnual := grossFromSalary + bonusTotal
  let pensionAnnual := pensionMonthly * (workMonths : ℚ)
  let biayaJabatan := calculateBiayaJabatan grossAnnual
  let totalDeductions := biayaJabatan + pensionAnnual + zakatAnnual
  let nettoAnnual := grossAnnual - totalDeductions
  let ptkp := getPTKP ptkpStatus
  let pkp := roundDownThousand (max 0 (nettoAnnual - ptkp))
  let annualTax := calculateProgressiveTax pkp
  match scheme with
  | .TER =>
    let monthlyIncome :=
      addBonusesToMonths workMonths bonuses (initMonthlyIncome grossMonthly workMonths)
    let ter := terLoop monthlyIncome terCategory bonuses workMonths
    let terPaid := ter.2
    let month12Adjustment := annualTax - terPaid
    finishResult grossMonthly grossAnnual bonusTotal bonuses workMonths
      biayaJabatan pensionAnnual zakatAnnual totalDeductions nettoAnnual ptkp pkp
      .TER (some terCategory) annualTax (some terPaid) (some month12Adjustment)
      (some ter.1)
  | .TRADITIONAL =>
    finishResult grossMonthly grossAnnual bonusTotal bonuses workMonths
      biayaJabatan pensionAnnual zakatAnnual totalDeductions nettoAnnual ptkp pkp
      .TRADITIONAL none annualTax none none none

/-! ## Projection lemmas for `calculate` -/

/-- The monthly-income array the TER branch of `calculate` builds. -/
lemma calculate_TER_monthlyBreakdown (gm : ℚ) (st : String) (wm : ℤ)
    (cat : PPh21TERCategory) (pm za : ℚ) (bs : List PPh21Bonus) :
    (calculate gm st wm .TER cat pm za bs).monthlyBreakdown =
      some (terLoop (addBonusesToMonths (clampWorkMonths wm) bs
        (initMonthlyIncome gm (clampWorkMonths wm))) cat bs (clampWorkMonths wm)).1 := rfl

lemma calculate_TER_terPaid (gm : ℚ) (st : String) (wm : ℤ)
    (cat : PPh21TERCategory) (pm za : ℚ) (bs : List PPh21Bonus) :
    (calculate gm st wm .TER cat pm za bs).terPaid =
      some (terLoop (addBonusesToMonths (clampWorkMonths wm) bs
        (initMonthlyIncome gm (clampWorkMonths wm))) cat bs (clampWorkMonths wm)).2 := rfl

lemma calculate_TER_month12Adjustment (gm : ℚ) (st : String) (wm : ℤ)
    (cat : PPh21TERCategory) (pm za : ℚ) (bs : List PPh21Bonus) :
    (calculate gm st wm .TER cat pm za bs).month12Adjustment =
      some ((calculate gm st wm .TER cat pm za bs).annualTax -
        (terLoop (addBonusesToMonths (clampWorkMonths wm) bs
          (initMonthlyIncome gm (clampWorkMonths wm))) cat bs (clampWorkMonths wm)).2) := rfl

lemma calculate_pkp_eq (gm : ℚ) (st : String) (wm : ℤ) (sch : PPh21Scheme)
    (cat : PPh21TERCategory) (pm za : ℚ) (bs : List PPh21Bonus) :
    (calculate gm st wm sch cat pm za bs).pkp =
      roundDownThousand (max 0 ((calculate gm st wm sch cat pm za bs).nettoAnnual -
        (calculate gm st wm sch cat pm za bs).ptkp)) := by
  cases sch <;> rfl

lemma calculate_annualTax_eq (gm : ℚ) (st : String) (wm : ℤ) (sch : PPh21Scheme)
    (cat : PPh21TERCategory) (pm za : ℚ) (bs : List PPh21Bonus) :
    (calculate gm st wm sch cat pm za bs).annualTax =
      calculateProgressiveTax (calculate gm st wm sch cat pm za bs).pkp := by
  cases sch <;> rfl

lemma calculate_grossAnnual_eq (gm : ℚ) (st : String) (wm : ℤ) (sch : PPh21Scheme)
    (cat : PPh21TERCategory) (pm za : ℚ) (bs : List PPh21Bonus) :
    (calculate gm st wm sch cat pm za bs).grossAnnual =
      gm * (clampWorkMonths wm : ℚ) + bonusTotalOf bs := by
  cases sch <;> rfl

lemma calculate_bonusTotal_eq (gm : ℚ) (st : String) (wm : ℤ) (sch : PPh21Scheme)
    (cat : PPh21TERCategory) (pm za : ℚ) (bs : List PPh21Bonus) :
    (calculate gm st wm sch cat pm za bs).bonusTotal = bonusTotalOf bs := by
  cases sch <;> rfl

/-! ## Helper lemmas -/

/-- Unrolls the push-and-accumulate fold of the TER month loop. -/
lemma foldl_push_sum (f : ℕ → MonthlyBreakdownEntry) (l : List ℕ)
    (acc : List MonthlyBreakdownEntry × ℚ) :
    l.foldl (fun acc i => (acc.1 ++ [f i], acc.2 + (f i).tax)) acc =
      (acc.1 ++ l.map f, acc.2 + (l.map (fun i => (f i).tax)).sum) := by
  induction l generalizing acc with
  | nil => simp
  | cons x xs ih => simp [ih, add_assoc]

/-- Closed form of `terLoop`: the breakdown list is the month-entry map over
`0, …, min 11 workMonths − 1`, and `terPaid` is the sum of the month taxes. -/
lemma terLoop_eq (monthlyIncome : List ℚ) (cat : PPh21TERCategory)
    (bonuses : List PPh21Bonus) (workMonths : ℕ) :
    terLoop monthlyIncome cat bonuses workMonths =
      ((List.range (min 11 workMonths)).map (terMonthEntry monthlyIncome cat bonuses),
       ((List.range (min 11 workMonths)).map
         (fun i => (terMonthEntry monthlyIncome cat bonuses i).tax)).sum) := by
  unfold terLoop
  rw [foldl_push_sum]
  simp

/-- Applying `roundDownThousand` to a non-negative value gives: a non-negative multiple of
1,000 that never exceeds the value, with the value under the next multiple. -/
lemma roundDownThousand_spec (x : ℚ) (hx : 0 ≤ x) :
    (∃ k : ℕ, roundDownThousand x = 1000 * k) ∧
      roundDownThousand x ≤ x ∧ x < roundDownThousand x + 1000 := by
  have hfl : (0 : ℤ) ≤ ⌊x / 1000⌋ := Int.floor_nonneg.mpr (by positivity)
  refine ⟨⟨⌊x / 1000⌋.toNat, ?_⟩, ?_, ?_⟩
  · rw [roundDownThousand]
    rw [mul_comm]
    congr 1
    exact_mod_cast (Int.toNat_of_nonneg hfl).symm
  · rw [roundDownThousand]
    have h := Int.floor_le (x / 1000)
    calc (⌊x / 1000⌋ : ℚ) * 1000 ≤ x / 1000 * 1000 := by
          exact mul_le_mul_of_nonneg_right h (by norm_num)
      _ = x := by ring
  · rw [roundDownThousand]
    have h := Int.lt_floor_add_one (x / 1000)
    have : x / 1000 * 1000 < ((⌊x / 1000⌋ : ℚ) + 1) * 1000 :=
      mul_lt_mul_of_pos_right h (by norm_num)
    calc x = x / 1000 * 1000 := by ring
      _ < ((⌊x / 1000⌋ : ℚ) + 1) * 1000 := this
      _ = (⌊x / 1000⌋ : ℚ) * 1000 + 1000 := by ring

/-- Unfolds one step of `progressiveTaxLoop` at a finite-limit bracket. -/
lemma progressiveTaxLoop_cons_some (pkp l rate prev tax : ℚ) (rest : List TaxBracket) :
    progressiveTaxLoop pkp ({ limit := some l, rate := rate } :: rest) prev tax =
      (if pkp ≤ l then
        (if 0 < min pkp l - prev then tax + (min pkp l - prev) * rate else tax)
       else progressiveTaxLoop pkp rest l
        (if 0 < min pkp l - prev then tax + (min pkp l - prev) * rate else tax)) := rfl

/-- Unfolds one step of `progressiveTaxLoop` at the unbounded last bracket. -/
lemma progressiveTaxLoop_cons_none (pkp rate prev tax : ℚ) (rest : List TaxBracket) :
    progressiveTaxLoop pkp ({ limit := none, rate := rate } :: rest) prev tax =
      (if 0 < pkp - prev then tax + (pkp - prev) * rate else tax) := rfl

/-- Piecewise closed form of `calculateProgressiveTax` over the five concrete
Pasal 17 brackets. -/
lemma calculateProgressiveTax_closed (pkp : ℚ) :
    calculateProgressiveTax pkp =
      if pkp ≤ 0 then 0
      else if pkp ≤ 50000000 then pkp * (5 / 100)
      else if pkp ≤ 250000000 then 2500000 + (pkp - 50000000) * (15 / 100)
      else if pkp ≤ 500000000 then 32500000 + (pkp - 250000000) * (25 / 100)
      else if pkp ≤ 5000000000 then 95000000 + (pkp - 500000000) * (30 / 100)
      else 1445000000 + (pkp - 5000000000) * (35 / 100) := by
  by_cases h0 : pkp ≤ 0
  · simp [calculateProgressiveTax, h0]
  · simp only [calculateProgressiveTax, TAX_BRACKETS, if_neg h0]
    rw [progressiveTaxLoop_cons_some]
    by_cases h1 : pkp ≤ 50000000
    · rw [min_eq_left h1, if_pos h1, if_pos (by linarith : (0:ℚ) < pkp - 0), if_pos h1]
      ring
    · rw [min_eq_right (by linarith : (50000000:ℚ) ≤ pkp), if_neg h1,
        if_pos (by norm_num : (0:ℚ) < 50000000 - 0), progressiveTaxLoop_cons_some]
      by_cases h2 : pkp ≤ 250000000
      · rw [min_eq_left h2, if_pos h2, if_pos (by linarith : (0:ℚ) < pkp - 50000000),
          if_neg h1, if_pos h2]
        ring
      · rw [min_eq_right (by linarith : (250000000:ℚ) ≤ pkp), if_neg h2,
          if_pos (by norm_num : (0:ℚ) < 250000000 - 50000000), progressiveTaxLoop_cons_some]
        by_cases h3 : pkp ≤ 500000000
        · rw [min_eq_left h3, if_pos h3, if_pos (by linarith : (0:ℚ) < pkp - 250000000),
            if_neg h1, if_neg h2, if_pos h3]
          ring
        · rw [min_eq_right (by linarith : (500000000:ℚ) ≤ pkp), if_neg h3,
            if_pos (by norm_num : (0:ℚ) < 500000000 - 250000000), progressiveTaxLoop_cons_some]
          by_cases h4 : pkp ≤ 5000000000
          · rw [min_eq_left h4, if_pos h4, if_pos (by linarith : (0:ℚ) < pkp - 500000000),
              if_neg h1, if_neg h2, if_neg h3, if_pos h4]
            ring
          · rw [min_eq_right (by linarith : (5000000000:ℚ) ≤ pkp), if_neg h4,
              if_pos (by norm_num : (0:ℚ) < 5000000000 - 500000000),
              progressiveTaxLoop_cons_none,
              if_pos (by linarith : (0:ℚ) < pkp - 5000000000),
              if_neg h1, if_neg h2, if_neg h3, if_neg h4]
            ring

/-! ## Claim theorems -/

/-- C6: `calculateProgressiveTax` is monotone non-decreasing in taxable
income, and returns exactly 0 for every `pkp ≤ 0`. -/
theorem progressiveTax_monotone_zero :
    (∀ p1 p2 : ℚ, p1 < p2 →
      calculateProgressiveTax p1 ≤ calculateProgressiveTax p2) ∧
    (∀ x : ℚ, x ≤ 0 → calculateProgressiveTax x = 0) := by
  constructor
  · intro p1 p2 h
    rw [calculateProgressiveTax_closed, calculateProgressiveTax_closed]
    split_ifs <;> linarith
  · intro x hx
    simp [calculateProgressiveTax, hx]

/-- C6 witness: monotonicity at 60,000,000 < 70,000,000 and the zero floor at
−5. -/
theorem progressiveTax_monotone_zero_witness :
    calculateProgressiveTax 60000000 ≤ calculateProgressiveTax 70000000 ∧
      calculateProgressiveTax (-5) = 0 :=
  ⟨progressiveTax_monotone_zero.1 60000000 70000000 (by norm_num),
   progressiveTax_monotone_zero.2 (-5) (by norm_num)⟩

/-- C1: for every TER-scheme invocation of `calculate`, the result satisfies
`terPaid + month12Adjustment = annualTax` exactly (exact arithmetic, the
adjustment may be negative). -/
theorem ter_terPaid_add_month12Adjustment_eq_annualTax (gm : ℚ) (st : String)
    (wm : ℤ) (cat : PPh21TERCategory) (pm za : ℚ) (bs : List PPh21Bonus) :
    ∃ tp adj : ℚ,
      (calculate gm st wm .TER cat pm za bs).terPaid = some tp ∧
      (calculate gm st wm .TER cat pm za bs).month12Adjustment = some adj ∧
      tp + adj = (calculate gm st wm .TER cat pm za bs).annualTax := by
  refine ⟨_, _, calculate_TER_terPaid gm st wm cat pm za bs,
    calculate_TER_month12Adjustment gm st wm cat pm za bs, ?_⟩
  ring

/-- C3: for a fixed input tuple, the TER scheme and the traditional scheme
produce the same `annualTax`, `pkp`, `monthlyTax`, `effectiveTaxRate`,
`takeHomeAnnual`, and `takeHomeMonthly`: TER changes only the in-year monthly
distribution, never the annual liability. -/
theorem ter_traditional_agree (gm : ℚ) (st : String) (wm : ℤ)
    (cat : PPh21TERCategory) (pm za : ℚ) (bs : List PPh21Bonus) :
    (calculate gm st wm .TER cat pm za bs).annualTax =
        (calculate gm st wm .TRADITIONAL cat pm za bs).annualTax ∧
      (calculate gm st wm .TER cat pm za bs).pkp =
        (calculate gm st wm .TRADITIONAL cat pm za bs).pkp ∧
      (calculate gm st wm .TER cat pm za bs).monthlyTax =
        (calculate gm st wm .TRADITIONAL cat pm za bs).monthlyTax ∧
      (calculate gm st wm .TER cat pm za bs).effectiveTaxRate =
        (calculate gm st wm .TRADITIONAL cat pm za bs).effectiveTaxRate ∧
      (calculate gm st wm .TER cat pm za bs).takeHomeAnnual =
        (calculate gm st wm .TRADITIONAL cat pm za bs).takeHomeAnnual ∧
      (calculate gm st wm .TER cat pm za bs).takeHomeMonthly =
        (calculate gm st wm .TRADITIONAL cat pm za bs).takeHomeMonthly :=
  ⟨rfl, rfl, rfl, rfl, rfl, rfl⟩

/-- C5: for every invocation of `calculate`, `pkp` is
`max 0 (nettoAnnual − ptkp)` floored to the nearest 1,000: a non-negative
multiple of 1,000 with `pkp ≤ max 0 (nettoAnnual − ptkp) < pkp + 1000`
(so the rounding never rounds up or to the nearest value). -/
theorem pkp_roundDown_spec (gm : ℚ) (st : String) (wm : ℤ) (sch : PPh21Scheme)
    (cat : PPh21TERCategory) (pm za : ℚ) (bs : List PPh21Bonus) :
    (∃ k : ℕ, (calculate gm st wm sch cat pm za bs).pkp = 1000 * k) ∧
      (calculate gm st wm sch cat pm za bs).pkp ≤
        max 0 ((calculate gm st wm sch cat pm za bs).nettoAnnual -
          (calculate gm st wm sch cat pm za bs).ptkp) ∧
      max 0 ((calculate gm st wm sch cat pm za bs).nettoAnnual -
          (calculate gm st wm sch cat pm za bs).ptkp) <
        (calculate gm st wm sch cat pm za bs).pkp + 1000 := by
  rw [calculate_pkp_eq]
  exact roundDownThousand_spec _ (le_max_left 0 _)

/-- C7 counterexample: the claim asserts `0 ≤ calculateBiayaJabatan g` for
every `g`, but at `g = -1000000` the source computes
`min (-1000000 × 0.05) 6000000 = -50000 < 0`. -/
theorem biayaJabatan_nonneg_cex : ¬ (0 ≤ calculateBiayaJabatan (-1000000)) := by
  norm_num [calculateBiayaJabatan, min_def]

/-- C7 (amended): `calculateBiayaJabatan g = min (g × 5%) 6000000` for every
`g`, the result never exceeds 6,000,000, and it is non-negative whenever the
gross annual income is non-negative. -/
theorem biayaJabatan_spec (g : ℚ) :
    calculateBiayaJabatan g = min (g * (5 / 100)) 6000000 ∧
      calculateBiayaJabatan g ≤ 6000000 ∧
      (0 ≤ g → 0 ≤ calculateBiayaJabatan g) := by
  refine ⟨by norm_num [calculateBiayaJabatan], min_le_right _ _, fun hg => ?_⟩
  exact le_min (by positivity) (by norm_num)

/-- C7 witness: the amended claim applied at the concrete input 100. -/
theorem biayaJabatan_spec_witness :
    (0 : ℚ) ≤ 100 ∧ 0 ≤ calculateBiayaJabatan 100 :=
  ⟨by norm_num, (biayaJabatan_spec 100).2.2 (by norm_num)⟩

/-- C9: `getPTKP` is total: the four recognized statuses return their table
amounts, and every other status falls back to the single (TK) tier 54,000,000
with no error. -/
theorem getPTKP_spec :
    getPTKP "TK" = 54000000 ∧ getPTKP "K1" = 58500000 ∧
      getPTKP "K2" = 63000000 ∧ getPTKP "K3" = 67500000 ∧
      ∀ s : String, s ≠ "TK" → s ≠ "K1" → s ≠ "K2" → s ≠ "K3" →
        getPTKP s = 54000000 := by
  refine ⟨rfl, rfl, rfl, rfl, fun s h1 h2 h3 h4 => ?_⟩
  simp [getPTKP, PTKP_RATES, h1, h2, h3, h4]

/-- C9 witness: an unrecognized status string falls back to 54,000,000. -/
theorem getPTKP_spec_witness : getPTKP "K9" = 54000000 :=
  getPTKP_spec.2.2.2.2 "K9" (by decide) (by decide) (by decide) (by decide)

/-- C10: the four TER-only result fields (`terPaid`, `month12Adjustment`,
`monthlyBreakdown`, `terCategory`) are all absent for a traditional-scheme
invocation and all present for a TER-scheme invocation. -/
theorem ter_fields_presence (gm : ℚ) (st : String) (wm : ℤ)
    (cat : PPh21TERCategory) (pm za : ℚ) (bs : List PPh21Bonus) :
    ((calculate gm st wm .TRADITIONAL cat pm za bs).terPaid = none ∧
      (calculate gm st wm .TRADITIONAL cat pm za bs).month12Adjustment = none ∧
      (calculate gm st wm .TRADITIONAL cat pm za bs).monthlyBreakdown = none ∧
      (calculate gm st wm .TRADITIONAL cat pm za bs).terCategory = none) ∧
    ((calculate gm st wm .TER cat pm za bs).terPaid.isSome = true ∧
      (calculate gm st wm .TER cat pm za bs).month12Adjustment.isSome = true ∧
      (calculate gm st wm .TER cat pm za bs).monthlyBreakdown.isSome = true ∧
      (calculate gm st wm .TER cat pm za bs).terCategory = some cat) :=
  ⟨⟨rfl, rfl, rfl, rfl⟩, ⟨rfl, rfl, rfl, rfl⟩⟩

/-- The scan of `getTERRateGo` falls through to the default when no row of the
list matches the income. -/
lemma getTERRateGo_all_false (x : ℚ) (cat : PPh21TERCategory) (l : List TERBracket)
    (h : ∀ b ∈ l, terBracketContains b x = false) :
    getTERRateGo x cat l = terDefaultRate cat := by
  induction l with
  | nil => rfl
  | cons b rest ih =>
    simp only [getTERRateGo, h b (List.mem_cons_self b rest), Bool.false_eq_true,
      if_false]
    exact ih (fun b' hb' => h b' (List.mem_cons_of_mem b hb'))

/-- C8: an income matched by no row of the TER table (for example a negative
income) resolves to the hardcoded top-bracket fallback rate of its category
(0.15 / 0.20 / 0.25) with no error, and an income inside a row's inclusive
range resolves to that row's rate column. -/
theorem getTERRate_lookup_spec (x : ℚ) (cat : PPh21TERCategory) :
    ((∀ b ∈ TER_MONTHLY_RATES, terBracketContains b x = false) →
       getTERRate x cat = terDefaultRate cat) ∧
    (∀ b ∈ TER_MONTHLY_RATES, terBracketContains b x = true →
       getTERRate x cat = terRateFor b cat) ∧
    terDefaultRate .A = 0.15 ∧ terDefaultRate .B = 0.20 ∧ terDefaultRate .C = 0.25 := by
  refine ⟨fun h => getTERRateGo_all_false x cat _ h, ?_, rfl, rfl, rfl⟩
  intro b hb hcont
  simp only [TER_MONTHLY_RATES, List.mem_cons, List.not_mem_nil, or_false] at hb
  rcases hb with hb | hb | hb | hb | hb | hb | hb | hb | hb <;>
    subst hb <;>
    simp only [terBracketContains, Bool.and_eq_true, decide_eq_true_eq,
      Bool.and_true] at hcont <;>
    simp only [getTERRate, TER_MONTHLY_RATES, getTERRateGo, terBracketContains,
      Bool.and_eq_true, decide_eq_true_eq, Bool.and_true, decide_eq_true_iff] <;>
    split_ifs <;>
    first
      | rfl
      | (exfalso; first | (obtain ⟨hc1, hc2⟩ := hcont; linarith) | linarith)

/-- C8 witness: income −1 (in no row) falls back to 0.15 for category A; income
5,500,000 sits in the second row and returns that row's B column. -/
theorem getTERRate_lookup_spec_witness :
    getTERRate (-1) PPh21TERCategory.A = 0.15 ∧
      getTERRate 5500000 PPh21TERCategory.B =
        terRateFor (⟨5000001, some 6000000, 0.0025, 0.0050, 0.0075⟩ : TERBracket)
          PPh21TERCategory.B :=
  ⟨((getTERRate_lookup_spec (-1) PPh21TERCategory.A).1 (by decide)).trans
      (getTERRate_lookup_spec (-1) PPh21TERCategory.A).2.2.1,
   (getTERRate_lookup_spec 5500000 PPh21TERCategory.B).2.1 _
     (List.Mem.tail _ (List.Mem.head _)) (by decide)⟩

/-- Evaluates `getD` on a mapped range at an in-range index. -/
lemma getD_map_range {α : Type} (f : ℕ → α) (n j : ℕ) (hj : j < n) (d : α) :
    ((List.range n).map f).getD j d = f j := by
  rw [List.getD_eq_getElem?_getD, List.getElem?_map, List.getElem?_range hj]
  rfl

/-- C2: for a TER-scheme invocation (with `w` the clamped work months), the
monthly breakdown holds exactly one record per month 1 … min 11 w — each
carrying that month's income, its TER rate, and `tax = income × rate` — with
`terPaid` the sum of those taxes, and no record for month 12; so month 12 is
never run through the TER table. -/
theorem ter_monthlyBreakdown_spec (gm : ℚ) (st : String) (wm : ℤ)
    (cat : PPh21TERCategory) (pm za : ℚ) (bs : List PPh21Bonus) :
    ∃ l : List MonthlyBreakdownEntry,
      (calculate gm st wm .TER cat pm za bs).monthlyBreakdown = some l ∧
      l.length = min 11 (clampWorkMonths wm) ∧
      (∀ j, j < l.length →
        ((l.getD j ⟨0, 0, 0, 0, false, none⟩).month = j + 1 ∧
         (l.getD j ⟨0, 0, 0, 0, false, none⟩).income =
           (addBonusesToMonths (clampWorkMonths wm) bs
             (initMonthlyIncome gm (clampWorkMonths wm))).getD j 0 ∧
         (l.getD j ⟨0, 0, 0, 0, false, none⟩).terRate =
           getTERRate (l.getD j ⟨0, 0, 0, 0, false, none⟩).income cat ∧
         (l.getD j ⟨0, 0, 0, 0, false, none⟩).tax =
           (l.getD j ⟨0, 0, 0, 0, false, none⟩).income *
             getTERRate (l.getD j ⟨0, 0, 0, 0, false, none⟩).income cat)) ∧
      (calculate gm st wm .TER cat pm za bs).terPaid =
        some ((l.map (fun e => e.tax)).sum) ∧
      (∀ e ∈ l, e.month ≠ 12) := by
  refine ⟨(terLoop (addBonusesToMonths (clampWorkMonths wm) bs
      (initMonthlyIncome gm (clampWorkMonths wm))) cat bs (clampWorkMonths wm)).1,
    rfl, ?_, ?_, ?_, ?_⟩
  · rw [terLoop_eq]
    simp
  · intro j hj
    rw [terLoop_eq] at hj ⊢
    simp only [List.length_map, List.length_range] at hj
    rw [getD_map_range _ _ _ hj]
    exact ⟨rfl, rfl, rfl, rfl⟩
  · rw [calculate_TER_terPaid, terLoop_eq]
    simp only [List.map_map]
    rfl
  · intro e he
    rw [terLoop_eq] at he
    simp only [List.mem_map, List.mem_range] at he
    obtain ⟨i, hi, rfl⟩ := he
    have : i < 11 := lt_of_lt_of_le hi (min_le_left _ _)
    simp only [terMonthEntry]
    omega

/-- C2 witness: the TER breakdown exists at a concrete input and its first
record is for month 1. -/
theorem ter_monthlyBreakdown_spec_witness :
    ∃ l : List MonthlyBreakdownEntry,
      (calculate 8000000 "TK" 12 .TER .B 0 0 []).monthlyBreakdown = some l ∧
      (l.getD 0 ⟨0, 0, 0, 0, false, none⟩).month = 0 + 1 := by
  obtain ⟨l, h1, h2, h3, h4, h5⟩ := ter_monthlyBreakdown_spec 8000000 "TK" 12 .B 0 0 []
  refine ⟨l, h1, (h3 0 ?_).1⟩
  rw [h2]
  decide

lemma bonusTotalOf_append_single (bs : List PPh21Bonus) (b : PPh21Bonus) :
    bonusTotalOf (bs ++ [b]) = bonusTotalOf bs + b.amount := by
  simp [bonusTotalOf, List.foldl_append]

/-- A bonus dated after the worked months fails the injection guard
`monthIndex < workMonths` and leaves the monthly-income array untouched. -/
lemma addBonusesToMonths_append_dropped (w : ℕ) (arr : List ℚ)
    (bs : List PPh21Bonus) (b : PPh21Bonus) (hb : (w : ℤ) < b.month) :
    addBonusesToMonths w (bs ++ [b]) arr = addBonusesToMonths w bs arr := by
  simp only [addBonusesToMonths, List.foldl_append, List.foldl_cons, List.foldl_nil]
  rw [if_neg]
  rintro ⟨-, -, h3⟩
  omega

/-- A bonus dated after month `i + 1` does not change month `i + 1`'s
breakdown record (its `b.month === i + 1` filter test is false). -/
lemma terMonthEntry_later_bonus (arr : List ℚ) (cat : PPh21TERCategory)
    (bs : List PPh21Bonus) (b : PPh21Bonus) (i : ℕ) (hi : (i : ℤ) + 1 < b.month) :
    terMonthEntry arr cat (bs ++ [b]) i = terMonthEntry arr cat bs i := by
  have hfilter : (bs ++ [b]).filter (fun b' => b'.month == (i : ℤ) + 1) =
      bs.filter (fun b' => b'.month == (i : ℤ) + 1) := by
    rw [List.filter_append]
    have : (b.month == (i : ℤ) + 1) = false := by
      simp only [beq_eq_false_iff_ne, ne_eq]
      omega
    simp [List.filter_cons, this]
  simp only [terMonthEntry, hfilter]

/-- C4: a bonus whose month exceeds the clamped work months is included in
`bonusTotal` and `grossAnnual`, yet contributes nothing to any slot of the TER
monthly-income array and hence to no monthly breakdown record (and nothing to
`terPaid`). -/
theorem bonus_beyond_workMonths_spec (gm : ℚ) (st : String) (wm : ℤ)
    (cat : PPh21TERCategory) (pm za : ℚ) (bs : List PPh21Bonus) (b : PPh21Bonus)
    (hb : (clampWorkMonths wm : ℤ) < b.month) :
    (calculate gm st wm .TER cat pm za (bs ++ [b])).bonusTotal =
        (calculate gm st wm .TER cat pm za bs).bonusTotal + b.amount ∧
      (calculate gm st wm .TER cat pm za (bs ++ [b])).grossAnnual =
        (calculate gm st wm .TER cat pm za bs).grossAnnual + b.amount ∧
      addBonusesToMonths (clampWorkMonths wm) (bs ++ [b])
          (initMonthlyIncome gm (clampWorkMonths wm)) =
        addBonusesToMonths (clampWorkMonths wm) bs
          (initMonthlyIncome gm (clampWorkMonths wm)) ∧
      (calculate gm st wm .TER cat pm za (bs ++ [b])).monthlyBreakdown =
        (calculate gm st wm .TER cat pm za bs).monthlyBreakdown ∧
      (calculate gm st wm .TER cat pm za (bs ++ [b])).terPaid =
        (calculate gm st wm .TER cat pm za bs).terPaid := by
  have harr := addBonusesToMonths_append_dropped (clampWorkMonths wm)
    (initMonthlyIncome gm (clampWorkMonths wm)) bs b hb
  have hent : ∀ i ∈ List.range (min 11 (clampWorkMonths wm)),
      terMonthEntry (addBonusesToMonths (clampWorkMonths wm) bs
        (initMonthlyIncome gm (clampWorkMonths wm))) cat (bs ++ [b]) i =
      terMonthEntry (addBonusesToMonths (clampWorkMonths wm) bs
        (initMonthlyIncome gm (clampWorkMonths wm))) cat bs i := by
    intro i hi
    simp only [List.mem_range] at hi
    refine terMonthEntry_later_bonus _ _ _ _ _ ?_
    have : i < clampWorkMonths wm := lt_of_lt_of_le hi (min_le_right _ _)
    omega
  have hloop : terLoop (addBonusesToMonths (clampWorkMonths wm) (bs ++ [b])
      (initMonthlyIncome gm (clampWorkMonths wm))) cat (bs ++ [b]) (clampWorkMonths wm) =
      terLoop (addBonusesToMonths (clampWorkMonths wm) bs
        (initMonthlyIncome gm (clampWorkMonths wm))) cat bs (clampWorkMonths wm) := by
    rw [harr, terLoop_eq, terLoop_eq]
    exact congrArg₂ Prod.mk (List.map_congr_left hent)
      (congrArg List.sum (List.map_congr_left (fun i hi => by rw [hent i hi])))
  refine ⟨?_, ?_, harr, ?_, ?_⟩
  · rw [calculate_bonusTotal_eq, calculate_bonusTotal_eq, bonusTotalOf_append_single]
  · rw [calculate_grossAnnual_eq, calculate_grossAnnual_eq, bonusTotalOf_append_single]
    ring
  · rw [calculate_TER_monthlyBreakdown, calculate_TER_monthlyBreakdown, hloop]
  · rw [calculate_TER_terPaid, calculate_TER_terPaid, hloop]

/-- C4 witness: a month-9 bonus with 6 work months leaves `terPaid` unchanged. -/
theorem bonus_beyond_workMonths_spec_witness :
    (calculate 1000000 "TK" 6 .TER .B 0 0 ([] ++ [⟨"bonus", 500000, 9⟩])).terPaid =
      (calculate 1000000 "TK" 6 .TER .B 0 0 []).terPaid :=
  (bonus_beyond_workMonths_spec 1000000 "TK" 6 .B 0 0 [] ⟨"bonus", 500000, 9⟩
    (by decide)).2.2.2.2

end PPHCalc
